import Mathlib

/-!
Shallow embedding of the instruction-processing core of the
solana-pinocchio-amm-workshop repository (the `pinocchio_amm` crate; the
`blueshift_native_amm` crate is a near-duplicate of the same logic and is
covered by the same definitions).

Machine integers are modelled as `Nat` (u8/u16/u64) and `Int` (i64); the
program performs no wrapping arithmetic on the paths modelled here, only
comparisons and field copies, so no explicit `% 2^w` is needed.  Fallible
Rust functions returning `Result<_, ProgramError>` become `Except
ProgramError _`.  Cross-program invocations (token transfers, mint, burn)
are recorded as an ordered list of `Effect`s instead of being executed.
-/

namespace AmmWorkshop

/-- The variants of the host `ProgramError` type that this program uses. -/
inductive ProgramError where
  | invalidAccountData
  | invalidAccountOwner
  | invalidArgument
  | notEnoughAccountKeys
  | invalidInstructionData
  | arithmeticOverflow
  deriving DecidableEq, Repr

/-- A 32-byte address (`Address` / `Pubkey`), modelled as its byte list. -/
abbrev Address := List Nat

/-- Persisted pool record (src/pinocchio_amm/src/state.rs, `struct Config`):
`state: u8`, `seed: [u8;8]` (le u64), `authority`, `mint_x`, `mint_y`,
`fee: [u8;2]` (le u16), `config_bump: [u8;1]`.  Multi-byte fields are held
at their decoded values. -/
structure Config where
  state : Nat
  seed : Nat
  authority : Address
  mint_x : Address
  mint_y : Address
  fee : Nat
  config_bump : Nat
  deriving DecidableEq, Repr

/-- The `AmmState` discriminants (state.rs): Uninitialized=0, Initialized=1,
Disabled=2, WithdrawOnly=3. -/
def AmmState.Uninitialized : Nat := 0

def AmmState.Initialized : Nat := 1

def AmmState.Disabled : Nat := 2

def AmmState.WithdrawOnly : Nat := 3

/-- `Config::set_state` (state.rs:139-145, identical in both crates): rejects
with `InvalidAccountData` when `state >= AmmState::WithdrawOnly as u8` (the
source uses `state.ge(&3)`), otherwise stores the value. -/
def Config.set_state (c : Config) (state : Nat) : Except ProgramError Config :=
  if AmmState.WithdrawOnly ≤ state then .error .invalidAccountData
  else .ok { c with state := state }

/-- `Config::set_seed` (state.rs:148-150). -/
def Config.set_seed (c : Config) (seed : Nat) : Config :=
  { c with seed := seed }

/-- `Config::set_authority` (state.rs:153-155). -/
def Config.set_authority (c : Config) (authority : Address) : Config :=
  { c with authority := authority }

/-- `Config::set_mint_x` (state.rs:158-160). -/
def Config.set_mint_x (c : Config) (mint_x : Address) : Config :=
  { c with mint_x := mint_x }

/-- `Config::set_mint_y` (state.rs:163-165). -/
def Config.set_mint_y (c : Config) (mint_y : Address) : Config :=
  { c with mint_y := mint_y }

/-- `Config::set_fee` (state.rs:168-174): rejects `fee >= 10000`. -/
def Config.set_fee (c : Config) (fee : Nat) : Except ProgramError Config :=
  if 10000 ≤ fee then .error .invalidAccountData
  else .ok { c with fee := fee }

/-- `Config::set_config_bump` (state.rs:177-179). -/
def Config.set_config_bump (c : Config) (config_bump : Nat) : Config :=
  { c with config_bump := config_bump }

/-- `Config::set_inner` (state.rs:182-199): runs `set_state(Initialized)?`,
then the infallible field setters, then `set_fee(fee)?`, then
`set_config_bump`.  Because the Rust receiver is `&mut self`, mutations made
before an early `return Err` persist in the record; the model therefore
returns the record alongside the `Result`. -/
def Config.set_inner (c : Config) (seed : Nat) (authority mint_x mint_y : Address)
    (fee : Nat) (config_bump : Nat) : Except ProgramError Unit × Config :=
  match c.set_state AmmState.Initialized with
  | .error e => (.error e, c)
  | .ok c1 =>
    let c2 := ((c1.set_seed seed |>.set_authority authority).set_mint_x mint_x).set_mint_y mint_y
    match c2.set_fee fee with
    | .error e => (.error e, c2)
    | .ok c3 => (.ok (), c3.set_config_bump config_bump)

/-- Little-endian byte-list to natural number (first byte least significant). -/
def leNat (bs : List Nat) : Nat :=
  bs.foldr (fun b acc => b + 256 * acc) 0

/-- Little-endian i64 decoding: an 8-byte value `n` denotes `n` when
`n < 2^63` and `n - 2^64` otherwise (two's complement). -/
def leI64 (bs : List Nat) : Int :=
  let n := leNat bs
  if n < 2 ^ 63 then (n : Int) else (n : Int) - 2 ^ 64

/-- The `n` bytes of `l` starting at offset `off` (a field view into a
packed wire buffer). -/
def slice (l : List Nat) (off n : Nat) : List Nat :=
  (l.drop off).take n

/-- `DepositInstructionData` (deposit.rs:64-71, `repr(C, packed)`):
`amount: u64, max_x: u64, max_y: u64, expiration: i64`; size 32. -/
structure DepositInstructionData where
  amount : Nat
  max_x : Nat
  max_y : Nat
  expiration : Int
  deriving DecidableEq, Repr

/-- `DepositInstructionData::try_from` (deposit.rs:76-83): errors with
`InvalidInstructionData` iff `data.len() < 32`; otherwise reads the record
from the leading 32 bytes (any trailing bytes are ignored). -/
def DepositInstructionData.try_from (data : List Nat) :
    Except ProgramError DepositInstructionData :=
  if data.length < 32 then .error .invalidInstructionData
  else .ok { amount := leNat (slice data 0 8), max_x := leNat (slice data 8 8),
             max_y := leNat (slice data 16 8), expiration := leI64 (slice data 24 8) }

/-- `WithdrawInstructionData` (withdraw.rs:54-61):
`amount: u64, min_x: u64, min_y: u64, expiration: i64`; size 32. -/
structure WithdrawInstructionData where
  amount : Nat
  min_x : Nat
  min_y : Nat
  expiration : Int
  deriving DecidableEq, Repr

/-- `WithdrawInstructionData::try_from` (withdraw.rs:66-71): errors iff
`data.len() < 32`; otherwise reads the leading 32 bytes. -/
def WithdrawInstructionData.try_from (data : List Nat) :
    Except ProgramError WithdrawInstructionData :=
  if data.length < 32 then .error .invalidInstructionData
  else .ok { amount := leNat (slice data 0 8), min_x := leNat (slice data 8 8),
             min_y := leNat (slice data 16 8), expiration := leI64 (slice data 24 8) }

/-- `SwapInstructionData` (swap.rs:44-51, `repr(C, packed)`):
`is_x: bool, amount: u64, min: u64, expiration: i64`; size 25. -/
structure SwapInstructionData where
  is_x : Bool
  amount : Nat
  min : Nat
  expiration : Int
  deriving DecidableEq, Repr

/-- `SwapInstructionData::try_from` (swap.rs:56-61): errors iff
`data.len() < 25`; otherwise reads the leading 25 bytes (byte 0 is the
direction flag, nonzero meaning X-input). -/
def SwapInstructionData.try_from (data : List Nat) :
    Except ProgramError SwapInstructionData :=
  if data.length < 25 then .error .invalidInstructionData
  else .ok { is_x := data.getD 0 0 != 0, amount := leNat (slice data 1 8),
             min := leNat (slice data 9 8), expiration := leI64 (slice data 17 8) }

/-- `InitializeInstructionData` (initialize.rs:46-55, both crates):
`seed: u64, fee: u16, mint_x: [u8;32], mint_y: [u8;32], config_bump: [u8;1],
lp_bump: [u8;1], authority: [u8;32]`; packed size 108 (76 without the
trailing authority). -/
structure InitializeInstructionData where
  seed : Nat
  fee : Nat
  mint_x : List Nat
  mint_y : List Nat
  config_bump : Nat
  lp_bump : Nat
  authority : List Nat
  deriving DecidableEq, Repr

/-- Field extraction shared by the two accepted Initialize payload lengths:
offsets 0,8,10,42,74,75 per the packed layout; the authority value is
supplied by the caller (either the bytes at offset 76, or 32 zero bytes). -/
def initFields (data : List Nat) (authority : List Nat) : InitializeInstructionData :=
  { seed := leNat (slice data 0 8), fee := leNat (slice data 8 2),
    mint_x := slice data 10 32, mint_y := slice data 42 32,
    config_bump := leNat (slice data 74 1), lp_bump := leNat (slice data 75 1),
    authority := authority }

/-- `InitializeInstructionData::try_from` (initialize.rs:57-86, both crates):
length 108 decodes directly; length 76 copies the supplied bytes into a
fresh buffer, writes 32 zero bytes where the authority field would be, and
decodes that buffer (so the authority decodes to 32 zero bytes and no byte
past the supplied slice is read); every other length errors with
`InvalidInstructionData`. -/
def InitializeInstructionData.try_from (data : List Nat) :
    Except ProgramError InitializeInstructionData :=
  if data.length = 108 then .ok (initFields data (slice data 76 32))
  else if data.length = 76 then .ok (initFields data (List.replicate 32 0))
  else .error .invalidInstructionData

/-- A cross-program invocation performed by a processor, recorded instead of
executed.  The vault-reserve effect of each token movement is what the
numerical claims are about. -/
inductive Effect where
  | transferUserXToVaultX (amount : Nat)
  | transferUserYToVaultY (amount : Nat)
  | mintLpToUser (amount : Nat)
  | burnLpFromUser (amount : Nat)
  | transferVaultXToUser (amount : Nat)
  | transferVaultYToUser (amount : Nat)
  deriving DecidableEq, Repr

/-- The external curve engine's proportional-amount functions
`ConstantProduct::xy_deposit_amounts_from_l` and
`xy_withdraw_amounts_from_l(reserve_x, reserve_y, supply, l, precision)`,
kept abstract: any function of that shape, `none` standing for a curve
error. -/
abbrev Curve := Nat → Nat → Nat → Nat → Nat → Option (Nat × Nat)

/-- Step 4 of `Deposit::process` (deposit.rs:130-145): with zero LP supply
the requested `(max_x, max_y)` are taken verbatim; otherwise the curve
engine computes the pair, a curve error becoming `ArithmeticOverflow`. -/
def depositAmounts (curve : Curve) (supply vault_x vault_y : Nat)
    (d : DepositInstructionData) : Except ProgramError (Nat × Nat) :=
  if supply = 0 then .ok (d.max_x, d.max_y)
  else
    match curve vault_x vault_y supply d.amount 6 with
    | none => .error .arithmeticOverflow
    | some xy => .ok xy

/-- `Deposit::process` after the expiration guard (deposit.rs:118-193):
state guard (`state != 1` rejects), amount computation, slippage guard
(`x > max_x || y > max_y` rejects), then transfer X in, transfer Y in, mint
`amount` LP. -/
def depositChecked (curve : Curve) (cfg : Config) (supply vault_x vault_y : Nat)
    (d : DepositInstructionData) : Except ProgramError Unit × List Effect :=
  if cfg.state ≠ AmmState.Initialized then (.error .invalidAccountData, [])
  else
    match depositAmounts curve supply vault_x vault_y d with
    | .error e => (.error e, [])
    | .ok (x, y) =>
      if d.max_x < x ∨ d.max_y < y then (.error .invalidArgument, [])
      else (.ok (), [.transferUserXToVaultX x, .transferUserYToVaultY y,
                     .mintLpToUser d.amount])

/-- `Deposit::process` (deposit.rs:108-194): the expiration guard
(`clock.unix_timestamp > data.expiration` rejects with `InvalidArgument`)
followed by the rest of the body.  `now` is the clock's `unix_timestamp`;
`cfg` is the loaded pool record; `supply` the LP mint supply; `vault_x`,
`vault_y` the vault balances. -/
def Deposit.process (curve : Curve) (now : Int) (cfg : Config)
    (supply vault_x vault_y : Nat) (d : DepositInstructionData) :
    Except ProgramError Unit × List Effect :=
  if d.expiration < now then (.error .invalidArgument, [])
  else depositChecked curve cfg supply vault_x vault_y d

/-- Step 4 of `Withdraw::process` (withdraw.rs:119-133): when the burn
amount equals the LP supply the vaults' entire balances are returned
verbatim; otherwise the curve engine computes the pair. -/
def withdrawAmounts (curve : Curve) (supply vault_x vault_y : Nat)
    (d : WithdrawInstructionData) : Except ProgramError (Nat × Nat) :=
  if supply = d.amount then .ok (vault_x, vault_y)
  else
    match curve vault_x vault_y supply d.amount 6 with
    | none => .error .arithmeticOverflow
    | some xy => .ok xy

/-- Steps 4-8 of `Withdraw::process` (withdraw.rs:114-181, after the state
guard): amount computation, slippage guard (`x < min_x || y < min_y`
rejects), then burn `amount` LP, transfer X out, transfer Y out (burn
before payout). -/
def withdrawCompute (curve : Curve) (supply vault_x vault_y : Nat)
    (d : WithdrawInstructionData) : Except ProgramError Unit × List Effect :=
  match withdrawAmounts curve supply vault_x vault_y d with
  | .error e => (.error e, [])
  | .ok (x, y) =>
    if x < d.min_x ∨ y < d.min_y then (.error .invalidArgument, [])
    else (.ok (), [.burnLpFromUser d.amount, .transferVaultXToUser x,
                   .transferVaultYToUser y])

/-- `Withdraw::process` after the expiration guard (withdraw.rs:107-181):
the lifecycle guard (`state == 2`, that is Disabled, rejects with
`InvalidAccountData`) followed by the amount computation and effects. -/
def withdrawChecked (curve : Curve) (cfg : Config) (supply vault_x vault_y : Nat)
    (d : WithdrawInstructionData) : Except ProgramError Unit × List Effect :=
  if cfg.state = AmmState.Disabled then (.error .invalidAccountData, [])
  else withdrawCompute curve supply vault_x vault_y d

/-- `Withdraw::process` (withdraw.rs:97-183): expiration guard followed by
the rest of the body. -/
def Withdraw.process (curve : Curve) (now : Int) (cfg : Config)
    (supply vault_x vault_y : Nat) (d : WithdrawInstructionData) :
    Except ProgramError Unit × List Effect :=
  if d.expiration < now then (.error .invalidArgument, [])
  else withdrawChecked curve cfg supply vault_x vault_y d

/-- Modelled from the spec: the external `constant_product_curve` crate's
`ConstantProduct::init(..).swap(pair, amount, min)` is not part of this
repository; per the spec's contract it deducts the fee (basis points out of
10000) from the input, prices the output on the constant-product curve over
`(reserveIn, reserveOut)` with rounding in the pool's favor, returns
`(deposit, withdraw)` with `deposit` the exact input amount, and fails when
the computed output is below the caller's minimum. -/
def curveSwap (reserveIn reserveOut fee amount minOut : Nat) : Option (Nat × Nat) :=
  let amountAfterFee := amount * (10000 - fee) / 10000
  let withdraw := reserveOut * amountAfterFee / (reserveIn + amountAfterFee)
  if withdraw < minOut then none else some (amount, withdraw)

/-- `Swap::process` after the expiration guard (swap.rs:96-177): state guard
(`state != 1` rejects), curve swap over the reserves oriented by the
direction flag (a curve error becoming `InvalidArgument`), then transfer
the input into its vault and the output out of the other vault. -/
def swapChecked (cfg : Config) (vault_x vault_y : Nat) (d : SwapInstructionData) :
    Except ProgramError Unit × List Effect :=
  if cfg.state ≠ AmmState.Initialized then (.error .invalidAccountData, [])
  else
    let reserves := if d.is_x then (vault_x, vault_y) else (vault_y, vault_x)
    match curveSwap reserves.1 reserves.2 cfg.fee d.amount d.min with
    | none => (.error .invalidArgument, [])
    | some (deposit, withdraw) =>
      if d.is_x then
        (.ok (), [.transferUserXToVaultX deposit, .transferVaultYToUser withdraw])
      else
        (.ok (), [.transferUserYToVaultY deposit, .transferVaultXToUser withdraw])

/-- `Swap::process` (swap.rs:86-178): expiration guard followed by the rest
of the body. -/
def Swap.process (now : Int) (cfg : Config) (vault_x vault_y : Nat)
    (d : SwapInstructionData) : Except ProgramError Unit × List Effect :=
  if d.expiration < now then (.error .invalidArgument, [])
  else swapChecked cfg vault_x vault_y d

/-- Vault-reserve update of one recorded token movement: transfers into a
vault add to it, transfers out subtract, LP mint/burn leave the vaults
unchanged. -/
def applyEffect (r : Nat × Nat) : Effect → Nat × Nat
  | .transferUserXToVaultX a => (r.1 + a, r.2)
  | .transferUserYToVaultY a => (r.1, r.2 + a)
  | .transferVaultXToUser a => (r.1 - a, r.2)
  | .transferVaultYToUser a => (r.1, r.2 - a)
  | .mintLpToUser _ => r
  | .burnLpFromUser _ => r

/-- Post-state of the `(vault_x, vault_y)` reserves after the recorded
effects of a processor. -/
def applyEffects (r : Nat × Nat) (effs : List Effect) : Nat × Nat :=
  effs.foldl applyEffect r

/-- Sample curve engine that always fails, used to evaluate theorems on
concrete inputs (it shows when a code path never consults the engine). -/
def curveNone : Curve := fun _ _ _ _ _ => none

/-- Sample curve engine that always answers `(5, 7)`, used to evaluate
theorems on concrete inputs. -/
def curveConst57 : Curve := fun _ _ _ _ _ => some (5, 7)

/-- C1: evaluation of `Config::set_state` over all of u8 on any record. The
guard in the source reads `state.ge(&(AmmState::WithdrawOnly as u8))`, so
the method accepts exactly 0, 1 and 2 and rejects every value from 3 up; in
particular the declared state WithdrawOnly = 3 itself is rejected with a
state-validation error, although the claim (and the own enum of the code,
whose WithdrawOnly mode the Withdraw guard is designed around) expects 0..3
accepted and only values above 3 rejected. -/
theorem set_state_rejects_withdrawOnly (c : Config) :
    c.set_state AmmState.WithdrawOnly = .error .invalidAccountData ∧
    (∀ s : Nat, s < 3 → c.set_state s = .ok { c with state := s }) ∧
    (∀ s : Nat, 3 ≤ s → c.set_state s = .error .invalidAccountData) := by
  refine ⟨rfl, fun s hs => ?_, fun s hs => ?_⟩
  · simp only [Config.set_state, AmmState.WithdrawOnly]
    rw [if_neg (by omega)]
  · simp only [Config.set_state, AmmState.WithdrawOnly]
    rw [if_pos hs]

/-- Witness for C1 theorem at concrete inputs: state 3 rejected, state 2
accepted, state 5 rejected. -/
theorem set_state_rejects_withdrawOnly_witness :
    (Config.mk 1 0 [] [] [] 0 0).set_state 3 = .error .invalidAccountData ∧
    (Config.mk 1 0 [] [] [] 0 0).set_state 2 = .ok (Config.mk 2 0 [] [] [] 0 0) ∧
    (Config.mk 1 0 [] [] [] 0 0).set_state 5 = .error .invalidAccountData :=
  ⟨(set_state_rejects_withdrawOnly (Config.mk 1 0 [] [] [] 0 0)).1,
   (set_state_rejects_withdrawOnly (Config.mk 1 0 [] [] [] 0 0)).2.1 2 (by decide),
   (set_state_rejects_withdrawOnly (Config.mk 1 0 [] [] [] 0 0)).2.2 5 (by decide)⟩

/-- C10: when the fee is 10000 or more, `Config::set_inner` returns the
state-validation error, but the record it leaves behind already carries the
new lifecycle state (Initialized), seed, authority, mint_x and mint_y; only
the fee and the bump keep their old values.  The write is not atomic on
this error path. -/
theorem set_inner_partial_write_on_bad_fee (c : Config) (seed : Nat)
    (authority mint_x mint_y : Address) (fee config_bump : Nat)
    (h : 10000 ≤ fee) :
    c.set_inner seed authority mint_x mint_y fee config_bump =
      (.error .invalidAccountData,
       { state := 1, seed := seed, authority := authority, mint_x := mint_x,
         mint_y := mint_y, fee := c.fee, config_bump := c.config_bump }) := by
  simp [Config.set_inner, Config.set_state, Config.set_seed, Config.set_authority,
        Config.set_mint_x, Config.set_mint_y, Config.set_fee,
        AmmState.Initialized, AmmState.WithdrawOnly, h]

/-- Witness for C10 theorem: fee 10000 on a concrete record. -/
theorem set_inner_partial_write_on_bad_fee_witness :
    10000 ≤ 10000 ∧
    (Config.mk 0 0 [] [] [] 30 7).set_inner 42 [1] [2] [3] 10000 9 =
      (.error .invalidAccountData, Config.mk 1 42 [1] [2] [3] 30 7) :=
  ⟨by decide,
   set_inner_partial_write_on_bad_fee (Config.mk 0 0 [] [] [] 30 7) 42 [1] [2] [3]
     10000 9 (by decide)⟩

/-- C5: when the requested burn amount equals the LP supply, the Withdraw
amount computation returns exactly the two vault balances, for every curve
engine (the proportional computation is bypassed). -/
theorem withdraw_full_burn_amounts (curve : Curve) (supply vault_x vault_y : Nat)
    (d : WithdrawInstructionData) (h : supply = d.amount) :
    withdrawAmounts curve supply vault_x vault_y d = .ok (vault_x, vault_y) := by
  simp [withdrawAmounts, h]

/-- Witness for C5 theorem: burning the whole supply 7 pays out the vault
balances (123, 456) even under a curve engine that always fails. -/
theorem withdraw_full_burn_amounts_witness :
    (7 : Nat) = (WithdrawInstructionData.mk 7 0 0 0).amount ∧
    withdrawAmounts curveNone 7 123 456 (WithdrawInstructionData.mk 7 0 0 0) =
      .ok (123, 456) :=
  ⟨rfl, withdraw_full_burn_amounts curveNone 7 123 456
    (WithdrawInstructionData.mk 7 0 0 0) rfl⟩

/-- C6: a Deposit executed on an empty pool (LP supply zero) under passing
guards consumes exactly the requested `(max_x, max_y)` and mints exactly
the requested `amount` of LP, for every curve engine (the curve is never
consulted). -/
theorem deposit_empty_pool (curve : Curve) (now : Int) (cfg : Config)
    (vault_x vault_y : Nat) (d : DepositInstructionData)
    (hstate : cfg.state = 1) (hexp : now ≤ d.expiration) :
    Deposit.process curve now cfg 0 vault_x vault_y d =
      (.ok (), [.transferUserXToVaultX d.max_x, .transferUserYToVaultY d.max_y,
                .mintLpToUser d.amount]) := by
  have h1 : ¬ d.expiration < now := by omega
  simp [Deposit.process, depositChecked, depositAmounts, AmmState.Initialized,
        hstate, h1]

/-- Witness for C6 theorem at the concrete instance of the claim: max_x =
1000, max_y = 2000, amount = 1000 on an empty pool consumes (1000, 2000)
and mints 1000 LP. -/
theorem deposit_empty_pool_witness :
    (Config.mk 1 0 [] [] [] 30 0).state = 1 ∧ (0 : Int) ≤
      (DepositInstructionData.mk 1000 1000 2000 5).expiration ∧
    Deposit.process curveNone 0 (Config.mk 1 0 [] [] [] 30 0) 0 0 0
        (DepositInstructionData.mk 1000 1000 2000 5) =
      (.ok (), [.transferUserXToVaultX 1000, .transferUserYToVaultY 2000,
                .mintLpToUser 1000]) :=
  ⟨rfl, by decide,
   deposit_empty_pool curveNone 0 (Config.mk 1 0 [] [] [] 30 0) 0 0
     (DepositInstructionData.mk 1000 1000 2000 5) rfl (by decide)⟩

/-- The Withdraw amount-computation stage never fails with the
state-validation error: its only failures are the curve error (mapped to
`ArithmeticOverflow`) and the slippage rejection (`InvalidArgument`). -/
theorem withdrawCompute_ne_state_error (curve : Curve) (supply vault_x vault_y : Nat)
    (d : WithdrawInstructionData) :
    withdrawCompute curve supply vault_x vault_y d ≠
      (.error .invalidAccountData, []) := by
  unfold withdrawCompute
  split
  · rename_i e heq
    have he : e = ProgramError.arithmeticOverflow := by
      unfold withdrawAmounts at heq
      split at heq
      · simp at heq
      · split at heq
        · simp at heq
          exact heq.symm
        · simp at heq
    simp [he]
  · split <;> simp

/-- C2: with the expiration guard passed, the Withdraw processor rejects
with the state-validation error exactly when the loaded record has
lifecycle state Disabled = 2; for every other state value the processor
proceeds to the amount-computation stage. -/
theorem withdraw_state_guard (curve : Curve) (now : Int) (cfg : Config)
    (supply vault_x vault_y : Nat) (d : WithdrawInstructionData)
    (hexp : now ≤ d.expiration) :
    (Withdraw.process curve now cfg supply vault_x vault_y d =
        (.error .invalidAccountData, []) ↔ cfg.state = 2) ∧
    (cfg.state ≠ 2 → Withdraw.process curve now cfg supply vault_x vault_y d =
        withdrawCompute curve supply vault_x vault_y d) := by
  have h1 : ¬ d.expiration < now := by omega
  unfold Withdraw.process withdrawChecked
  rw [if_neg h1]
  by_cases hs : cfg.state = AmmState.Disabled
  · rw [if_pos hs]
    exact ⟨⟨fun _ => hs, fun _ => rfl⟩, fun hne => absurd hs hne⟩
  · rw [if_neg hs]
    exact ⟨⟨fun h => absurd h (withdrawCompute_ne_state_error curve supply vault_x vault_y d),
            fun h2 => absurd h2 hs⟩,
           fun _ => rfl⟩

/-- Witness for C2 theorem: a Disabled record (state 2) is rejected, and a
WithdrawOnly record (state 3) proceeds to the amount computation. -/
theorem withdraw_state_guard_witness :
    (0 : Int) ≤ (WithdrawInstructionData.mk 7 0 0 0).expiration ∧
    (Withdraw.process curveNone 0 (Config.mk 2 0 [] [] [] 0 0) 7 11 13
        (WithdrawInstructionData.mk 7 0 0 0) = (.error .invalidAccountData, []) ↔
      (Config.mk 2 0 [] [] [] 0 0).state = 2) ∧
    ((Config.mk 3 0 [] [] [] 0 0).state ≠ 2 →
      Withdraw.process curveNone 0 (Config.mk 3 0 [] [] [] 0 0) 7 11 13
          (WithdrawInstructionData.mk 7 0 0 0) =
        withdrawCompute curveNone 7 11 13 (WithdrawInstructionData.mk 7 0 0 0)) :=
  ⟨by decide,
   (withdraw_state_guard curveNone 0 (Config.mk 2 0 [] [] [] 0 0) 7 11 13
     (WithdrawInstructionData.mk 7 0 0 0) (by decide)).1,
   (withdraw_state_guard curveNone 0 (Config.mk 3 0 [] [] [] 0 0) 7 11 13
     (WithdrawInstructionData.mk 7 0 0 0) (by decide)).2⟩

/-- C7: in each of the Deposit, Withdraw and Swap processors a request with
expiration strictly before the current clock time is rejected with the
expired-request error and no transfer, mint or burn is recorded, while a
request with expiration at or after the current time passes the guard and
the processor continues with the rest of its body. -/
theorem expiration_guard (curve : Curve) (now : Int) (cfg : Config)
    (supply vault_x vault_y : Nat)
    (d1 d2 : DepositInstructionData) (w1 w2 : WithdrawInstructionData)
    (s1 s2 : SwapInstructionData)
    (hd1 : d1.expiration < now) (hd2 : now ≤ d2.expiration)
    (hw1 : w1.expiration < now) (hw2 : now ≤ w2.expiration)
    (hs1 : s1.expiration < now) (hs2 : now ≤ s2.expiration) :
    Deposit.process curve now cfg supply vault_x vault_y d1 =
      (.error .invalidArgument, []) ∧
    Deposit.process curve now cfg supply vault_x vault_y d2 =
      depositChecked curve cfg supply vault_x vault_y d2 ∧
    Withdraw.process curve now cfg supply vault_x vault_y w1 =
      (.error .invalidArgument, []) ∧
    Withdraw.process curve now cfg supply vault_x vault_y w2 =
      withdrawChecked curve cfg supply vault_x vault_y w2 ∧
    Swap.process now cfg vault_x vault_y s1 = (.error .invalidArgument, []) ∧
    Swap.process now cfg vault_x vault_y s2 = swapChecked cfg vault_x vault_y s2 := by
  unfold Deposit.process Withdraw.process Swap.process
  exact ⟨if_pos hd1, if_neg (by omega), if_pos hw1, if_neg (by omega),
         if_pos hs1, if_neg (by omega)⟩

/-- Witness for C7 theorem: clock time 0, expired requests carry expiration
-1 and fresh ones expiration 0. -/
theorem expiration_guard_witness :
    (DepositInstructionData.mk 1 1 1 (-1)).expiration < (0 : Int) ∧
    (0 : Int) ≤ (DepositInstructionData.mk 1 1 1 0).expiration ∧
    (WithdrawInstructionData.mk 1 0 0 (-1)).expiration < (0 : Int) ∧
    (0 : Int) ≤ (WithdrawInstructionData.mk 1 0 0 0).expiration ∧
    (SwapInstructionData.mk true 1 0 (-1)).expiration < (0 : Int) ∧
    (0 : Int) ≤ (SwapInstructionData.mk true 1 0 0).expiration ∧
    Deposit.process curveConst57 0 (Config.mk 1 0 [] [] [] 0 0) 9 11 13
        (DepositInstructionData.mk 1 1 1 (-1)) = (.error .invalidArgument, []) ∧
    Deposit.process curveConst57 0 (Config.mk 1 0 [] [] [] 0 0) 9 11 13
        (DepositInstructionData.mk 1 1 1 0) =
      depositChecked curveConst57 (Config.mk 1 0 [] [] [] 0 0) 9 11 13
        (DepositInstructionData.mk 1 1 1 0) ∧
    Withdraw.process curveConst57 0 (Config.mk 1 0 [] [] [] 0 0) 9 11 13
        (WithdrawInstructionData.mk 1 0 0 (-1)) = (.error .invalidArgument, []) ∧
    Withdraw.process curveConst57 0 (Config.mk 1 0 [] [] [] 0 0) 9 11 13
        (WithdrawInstructionData.mk 1 0 0 0) =
      withdrawChecked curveConst57 (Config.mk 1 0 [] [] [] 0 0) 9 11 13
        (WithdrawInstructionData.mk 1 0 0 0) ∧
    Swap.process 0 (Config.mk 1 0 [] [] [] 0 0) 11 13
        (SwapInstructionData.mk true 1 0 (-1)) = (.error .invalidArgument, []) ∧
    Swap.process 0 (Config.mk 1 0 [] [] [] 0 0) 11 13
        (SwapInstructionData.mk true 1 0 0) =
      swapChecked (Config.mk 1 0 [] [] [] 0 0) 11 13
        (SwapInstructionData.mk true 1 0 0) := by
  have h := expiration_guard curveConst57 0 (Config.mk 1 0 [] [] [] 0 0) 9 11 13
    (DepositInstructionData.mk 1 1 1 (-1)) (DepositInstructionData.mk 1 1 1 0)
    (WithdrawInstructionData.mk 1 0 0 (-1)) (WithdrawInstructionData.mk 1 0 0 0)
    (SwapInstructionData.mk true 1 0 (-1)) (SwapInstructionData.mk true 1 0 0)
    (by decide) (by decide) (by decide) (by decide) (by decide) (by decide)
  exact ⟨by decide, by decide, by decide, by decide, by decide, by decide,
         h.1, h.2.1, h.2.2.1, h.2.2.2.1, h.2.2.2.2.1, h.2.2.2.2.2⟩

/-- C3 counterexample: a 33-byte Deposit payload, whose length is not the
fixed record size 32, still decodes successfully, so the claim that any
length other than the record size is rejected fails on the code. -/
theorem deposit_decode_accepts_extra_byte :
    (List.replicate 33 0).length ≠ 32 ∧
    DepositInstructionData.try_from (List.replicate 33 0) =
      .ok (DepositInstructionData.mk 0 0 0 0) := by
  constructor
  · decide
  · rfl

/-- C3 amended: the Deposit and Withdraw decoders accept exactly the
payloads of length at least 32 and the Swap decoder those of length at
least 25 (the record is read from the leading bytes and trailing bytes are
ignored), each rejecting only shorter payloads; the Initialize decoder
accepts exactly the lengths 108 and 76. -/
theorem decode_accepted_lengths (l : List Nat) :
    ((DepositInstructionData.try_from l).isOk = true ↔ 32 ≤ l.length) ∧
    ((WithdrawInstructionData.try_from l).isOk = true ↔ 32 ≤ l.length) ∧
    ((SwapInstructionData.try_from l).isOk = true ↔ 25 ≤ l.length) ∧
    ((InitializeInstructionData.try_from l).isOk = true ↔
      (l.length = 108 ∨ l.length = 76)) := by
  refine ⟨?_, ?_, ?_, ?_⟩
  · unfold DepositInstructionData.try_from
    split <;> simp [Except.isOk, Except.toBool] <;> omega
  · unfold WithdrawInstructionData.try_from
    split <;> simp [Except.isOk, Except.toBool] <;> omega
  · unfold SwapInstructionData.try_from
    split <;> simp [Except.isOk, Except.toBool] <;> omega
  · unfold InitializeInstructionData.try_from
    split
    · simp [Except.isOk, Except.toBool]
      omega
    · split <;> simp [Except.isOk, Except.toBool] <;> omega

/-- A field view into the left part of an extended buffer agrees with the
view into the original buffer when the field lies inside it. -/
theorem slice_append_left (l zs : List Nat) (off n : Nat) (h : off + n ≤ l.length) :
    slice (l ++ zs) off n = slice l off n := by
  unfold slice
  rw [List.drop_append_eq_append_drop]
  have h1 : off - l.length = 0 := by omega
  rw [h1, List.drop_zero, List.take_append_eq_append_take]
  have h2 : n - (List.drop off l).length = 0 := by
    rw [List.length_drop]
    omega
  rw [h2, List.take_zero, List.append_nil]

/-- The authority field view of a short payload extended with 32 zero bytes
is those 32 zero bytes. -/
theorem slice_padding (l : List Nat) (h : l.length = 76) :
    slice (l ++ List.replicate 32 0) 76 32 = List.replicate 32 0 := by
  unfold slice
  have hd : List.drop 76 l = [] := List.drop_eq_nil_of_le (by omega)
  rw [List.drop_append_eq_append_drop, hd, h]
  simp

/-- C9: a short-form Initialize payload (length 76) decodes successfully,
and to exactly the record obtained from the long-form payload made by
appending a 32-zero-byte authority field; the decoder reads only the
supplied bytes (the short-form record is a function of the 76 bytes alone,
its authority forced to 32 zero bytes). -/
theorem initialize_short_form_decode (l : List Nat) (h : l.length = 76) :
    InitializeInstructionData.try_from (l ++ List.replicate 32 0) =
      InitializeInstructionData.try_from l ∧
    InitializeInstructionData.try_from l =
      .ok (initFields l (List.replicate 32 0)) := by
  have hlen : (l ++ List.replicate 32 0).length = 108 := by simp [h]
  have hshort : InitializeInstructionData.try_from l =
      .ok (initFields l (List.replicate 32 0)) := by
    unfold InitializeInstructionData.try_from
    rw [if_neg (by omega), if_pos h]
  refine ⟨?_, hshort⟩
  rw [hshort]
  unfold InitializeInstructionData.try_from
  rw [if_pos hlen]
  have hfields : initFields (l ++ List.replicate 32 0)
      (slice (l ++ List.replicate 32 0) 76 32) =
      initFields l (List.replicate 32 0) := by
    unfold initFields
    rw [slice_padding l h,
        slice_append_left l (List.replicate 32 0) 0 8 (by omega),
        slice_append_left l (List.replicate 32 0) 8 2 (by omega),
        slice_append_left l (List.replicate 32 0) 10 32 (by omega),
        slice_append_left l (List.replicate 32 0) 42 32 (by omega),
        slice_append_left l (List.replicate 32 0) 74 1 (by omega),
        slice_append_left l (List.replicate 32 0) 75 1 (by omega)]
  rw [hfields]

/-- Witness for C9 theorem: the all-zero payload of length 76. -/
theorem initialize_short_form_decode_witness :
    (List.replicate 76 0).length = 76 ∧
    InitializeInstructionData.try_from (List.replicate 76 0 ++ List.replicate 32 0) =
      InitializeInstructionData.try_from (List.replicate 76 0) ∧
    InitializeInstructionData.try_from (List.replicate 76 0) =
      .ok (initFields (List.replicate 76 0) (List.replicate 32 0)) :=
  ⟨by decide,
   (initialize_short_form_decode (List.replicate 76 0) (by decide)).1,
   (initialize_short_form_decode (List.replicate 76 0) (by decide)).2⟩

/-- C8: on a non-empty pool under passing expiration and state guards, a
Deposit that succeeds consumed amounts within the caller bounds (x at most
max_x, y at most max_y, and exactly those amounts transferred), and when
the curve answers amounts violating either bound the processor aborts with
the slippage error and records no transfer at all. -/
theorem deposit_slippage_bounds (curve : Curve) (now : Int) (cfg : Config)
    (supply vault_x vault_y : Nat) (d : DepositInstructionData)
    (_hsupply : supply ≠ 0) (hexp : now ≤ d.expiration) (hstate : cfg.state = 1) :
    (∀ effs, Deposit.process curve now cfg supply vault_x vault_y d = (.ok (), effs) →
      ∃ x y, depositAmounts curve supply vault_x vault_y d = .ok (x, y) ∧
        x ≤ d.max_x ∧ y ≤ d.max_y ∧
        effs = [.transferUserXToVaultX x, .transferUserYToVaultY y,
                .mintLpToUser d.amount]) ∧
    (∀ x y, depositAmounts curve supply vault_x vault_y d = .ok (x, y) →
      (d.max_x < x ∨ d.max_y < y) →
      Deposit.process curve now cfg supply vault_x vault_y d =
        (.error .invalidArgument, [])) := by
  have hni : ¬ d.expiration < now := by omega
  have hst : ¬ cfg.state ≠ AmmState.Initialized := by
    simp [hstate, AmmState.Initialized]
  constructor
  · intro effs h
    unfold Deposit.process depositChecked at h
    rw [if_neg hni, if_neg hst] at h
    rcases hA : depositAmounts curve supply vault_x vault_y d with e | ⟨x, y⟩ <;>
      rw [hA] at h <;> dsimp only at h
    · simp at h
    · by_cases hb : d.max_x < x ∨ d.max_y < y
      · rw [if_pos hb] at h
        simp at h
      · rw [if_neg hb] at h
        push_neg at hb
        refine ⟨x, y, rfl, hb.1, hb.2, ?_⟩
        injection h with h1 h2
        exact h2.symm
  · intro x y hA hb
    unfold Deposit.process depositChecked
    rw [if_neg hni, if_neg hst, hA]
    dsimp only
    rw [if_pos hb]

/-- Witness for C8 theorem: a pool with supply 3 whose curve answers (5, 7)
while the request allows at most (4, 7): the processor aborts with the
slippage error and no transfers, and correspondingly no success run exists
for this request (vacuous first conjunct exercised at the error outcome). -/
theorem deposit_slippage_bounds_witness :
    (3 : Nat) ≠ 0 ∧
    (0 : Int) ≤ (DepositInstructionData.mk 2 4 7 0).expiration ∧
    (Config.mk 1 0 [] [] [] 0 0).state = 1 ∧
    depositAmounts curveConst57 3 10 10 (DepositInstructionData.mk 2 4 7 0) =
      .ok (5, 7) ∧
    ((DepositInstructionData.mk 2 4 7 0).max_x < 5 ∨
      (DepositInstructionData.mk 2 4 7 0).max_y < 7) ∧
    Deposit.process curveConst57 0 (Config.mk 1 0 [] [] [] 0 0) 3 10 10
        (DepositInstructionData.mk 2 4 7 0) = (.error .invalidArgument, []) :=
  ⟨by decide, by decide, rfl, rfl, by decide,
   (deposit_slippage_bounds curveConst57 0 (Config.mk 1 0 [] [] [] 0 0) 3 10 10
       (DepositInstructionData.mk 2 4 7 0) (by decide) (by decide) rfl).2 5 7 rfl
     (by decide)⟩

/-- Constant-product floor-division inequality: paying out at most
`rout * f / (rin + f)` against a contribution of `a ≥ f` never decreases
the reserve product. -/
theorem cp_product_le (rin rout f a : Nat) (hf : f ≤ a) :
    rin * rout ≤ (rin + a) * (rout - rout * f / (rin + f)) := by
  set wd := rout * f / (rin + f) with hwd
  have hwle : wd ≤ rout := by
    rcases Nat.eq_zero_or_pos (rin + f) with h0 | hpos
    · simp [hwd, h0]
    · calc wd ≤ rout * (rin + f) / (rin + f) :=
            Nat.div_le_div_right (Nat.mul_le_mul_left rout (by omega))
        _ = rout := Nat.mul_div_cancel rout hpos
  have hC : (rin + f) * wd ≤ rout * f := by
    rw [hwd, Nat.mul_comm]
    exact Nat.div_mul_le_self (rout * f) (rin + f)
  obtain ⟨k, hk⟩ : ∃ k, rout = wd + k := ⟨rout - wd, by omega⟩
  have hk2 : rout - wd = k := by omega
  rw [hk2]
  rw [hk] at hC ⊢
  have h1 : rin * wd ≤ k * f := by nlinarith [hC]
  have h2 : k * f ≤ k * a := Nat.mul_le_mul_left k hf
  nlinarith [h1, h2]

/-- The fee-adjusted input never exceeds the input. -/
theorem feeAdjusted_le (amount fee : Nat) :
    amount * (10000 - fee) / 10000 ≤ amount := by
  have h : amount * (10000 - fee) ≤ amount * 10000 :=
    Nat.mul_le_mul_left amount (by omega)
  calc amount * (10000 - fee) / 10000 ≤ amount * 10000 / 10000 :=
      Nat.div_le_div_right h
    _ = amount := Nat.mul_div_cancel amount (by norm_num)

/-- A successful curve swap satisfies the product contract: adding the full
deposit to the input reserve and removing the payout from the output
reserve never decreases the reserve product. -/
theorem curveSwap_product (rin rout fee amount minOut dep wd : Nat)
    (h : curveSwap rin rout fee amount minOut = some (dep, wd)) :
    rin * rout ≤ (rin + dep) * (rout - wd) := by
  unfold curveSwap at h
  dsimp only at h
  split at h
  · exact absurd h (by simp)
  · simp only [Option.some.injEq, Prod.mk.injEq] at h
    obtain ⟨h1, h2⟩ := h
    subst h1
    subst h2
    exact cp_product_le rin rout _ amount (feeAdjusted_le amount fee)

/-- C4: whenever the Swap processor succeeds, applying its recorded vault
transfers to the pre-swap reserves yields a reserve pair whose product is
at least the pre-swap product, in both swap directions. -/
theorem swap_product_nondecreasing (now : Int) (cfg : Config)
    (vault_x vault_y : Nat) (d : SwapInstructionData) (effs : List Effect)
    (h : Swap.process now cfg vault_x vault_y d = (.ok (), effs)) :
    vault_x * vault_y ≤
      (applyEffects (vault_x, vault_y) effs).1 *
        (applyEffects (vault_x, vault_y) effs).2 := by
  unfold Swap.process at h
  by_cases hexp : d.expiration < now
  · rw [if_pos hexp] at h
    simp at h
  · rw [if_neg hexp] at h
    unfold swapChecked at h
    by_cases hst : cfg.state ≠ AmmState.Initialized
    · rw [if_pos hst] at h
      simp at h
    · rw [if_neg hst] at h
      dsimp only at h
      by_cases hx : d.is_x
      · rw [if_pos hx] at h
        rcases hc : curveSwap vault_x vault_y cfg.fee d.amount d.min
          with _ | ⟨dep, wd⟩ <;> rw [hc] at h <;> dsimp only at h
        · simp at h
        · rw [if_pos hx] at h
          injection h with h1 h2
          subst h2
          simp only [applyEffects, List.foldl, applyEffect]
          exact curveSwap_product vault_x vault_y cfg.fee d.amount d.min dep wd hc
      · rw [if_neg hx] at h
        rcases hc : curveSwap vault_y vault_x cfg.fee d.amount d.min
          with _ | ⟨dep, wd⟩ <;> rw [hc] at h <;> dsimp only at h
        · simp at h
        · rw [if_neg hx] at h
          injection h with h1 h2
          subst h2
          simp only [applyEffects, List.foldl, applyEffect]
          calc vault_x * vault_y = vault_y * vault_x := Nat.mul_comm _ _
            _ ≤ (vault_y + dep) * (vault_x - wd) :=
              curveSwap_product vault_y vault_x cfg.fee d.amount d.min dep wd hc
            _ = (vault_x - wd) * (vault_y + dep) := Nat.mul_comm _ _

/-- Witness for C4 theorem: reserves (1000, 1000) with a 1 percent fee and
an X-input of 100 pay out 90 and move the product from 1000000 to
1100 * 910 = 1001000. -/
theorem swap_product_nondecreasing_witness :
    Swap.process 0 (Config.mk 1 0 [] [] [] 100 0) 1000 1000
        (SwapInstructionData.mk true 100 0 0) =
      (.ok (), [.transferUserXToVaultX 100, .transferVaultYToUser 90]) ∧
    1000 * 1000 ≤
      (applyEffects (1000, 1000)
          [Effect.transferUserXToVaultX 100, Effect.transferVaultYToUser 90]).1 *
        (applyEffects (1000, 1000)
          [Effect.transferUserXToVaultX 100, Effect.transferVaultYToUser 90]).2 :=
  ⟨rfl,
   swap_product_nondecreasing 0 (Config.mk 1 0 [] [] [] 100 0) 1000 1000
     (SwapInstructionData.mk true 100 0 0)
     [Effect.transferUserXToVaultX 100, Effect.transferVaultYToUser 90] rfl⟩

end AmmWorkshop
